import Mathlib

/-!
Verification of the torch-xla IR node core (`ir.h`) and the collective
reduction example node (`ops/all_reduce.cpp`) against its specification.

The development shallowly embeds the node data model: machine hash words
(`torch::lazy::hash_t`, a 128-bit integer) become `Nat` reduced modulo
`2 ^ 128`, the XLA shape value type becomes an inductive with an array
form and a tuple-of-arrays form (the spec's "single pair or tuple of such
pairs"), and mutation of a node becomes functional update of a `XlaNode`
structure.  Bodies that live in translation units not present in the
repository slice (`ir.cpp`, `cross_replica_reduces.cpp`) are modelled
from the specification and are marked as such in their doc comments.
-/

/-- Width of `torch::lazy::hash_t` (an unsigned 128-bit integer). -/
def hashWidth : Nat := 2 ^ 128

/-- Modelled from the spec: `torch::lazy::HashCombine` (external library
torch/csrc/lazy/core/hash.h), the deterministic fixed-width digest
combinator.  `a << 6` is multiplication by 64 and `a >> 2` is division
by 4, all reduced modulo the 128-bit word width. -/
def HashCombine (a b : Nat) : Nat :=
  Nat.xor (a % hashWidth)
    ((b * 0x27d4eb2f165667c5 + 0x9e3779b97f4a7c15 + a * 64 + a / 4) % hashWidth) % hashWidth

/-- Fold a list of naturals into one digest. -/
def hashList (l : List Nat) : Nat :=
  l.foldl HashCombine 0x9e3779b97f4a7c15

/-- Encode a string (e.g. an interned operation-kind name) as a natural. -/
def strEnc (s : String) : Nat :=
  s.toList.foldl (fun h c => HashCombine h c.toNat) 0x5a2d296e9

/-- Encode an integer as a natural (sign bit in the low position). -/
def intEnc (i : Int) : Nat :=
  2 * i.natAbs + (if i < 0 then 1 else 0)

/-- Encode a rational (modelling a C++ `double` parameter that is only
stored and hashed, never computed with) as a natural. -/
def ratEnc (q : Rat) : Nat :=
  HashCombine (intEnc q.num) q.den

/-- Encode a replica-group partition (`std::vector<std::vector<int64_t>>`). -/
def groupsEnc (groups : List (List Int)) : Nat :=
  groups.foldl (fun h g => HashCombine h (hashList (g.map intEnc))) 0x2d

/-- An interned operation kind (`torch::lazy::OpKind`): a symbolic
identifier whose equality is by identity; modelled by its full name. -/
structure OpKind where
  name : String
deriving DecidableEq, Repr

/-- The hash of an interned operation kind (`op.hash()`). -/
def OpKind.opHash (op : OpKind) : Nat := strEnc op.name

/-- A single-output (array) shape: element type and dimension sequence. -/
structure ArrayShape where
  elemType : String
  dims : List Nat
deriving DecidableEq, Repr

/-- `xla::Shape`: either a single (element-type, dimensions) pair or, for
multi-output nodes, a tuple of such pairs (spec section 3, Output Shape). -/
inductive XlaShape where
  | array (s : ArrayShape)
  | tuple (elems : List ArrayShape)
deriving DecidableEq, Repr

/-- Digest of an array shape. -/
def arrayShapeHash (s : ArrayShape) : Nat :=
  HashCombine (strEnc s.elemType) (hashList s.dims)

/-- Digest of an `xla::Shape` (array and tuple forms kept apart). -/
def xlaShapeHash : XlaShape → Nat
  | XlaShape.array s => HashCombine 1 (arrayShapeHash s)
  | XlaShape.tuple elems =>
      HashCombine 2 (elems.foldl (fun h s => HashCombine h (arrayShapeHash s)) 3)

/-- `torch::lazy::Value` / `torch::lazy::Output`: a reference to one
output of an operand node, carrying the producing node's content
identity (its dag hash), the output's shape and the output index.
Equality of `Value`s models "same operand node and output index". -/
structure Value where
  nodeHash : Nat
  shape : ArrayShape
  index : Nat
deriving DecidableEq, Repr

/-- `GetXlaShape(value)`: the XLA shape of one operand output. -/
def GetXlaShape (v : Value) : XlaShape := XlaShape.array v.shape

/-- `xla::OpSharding` (external proto), modelled opaquely by an encoding. -/
structure OpSharding where
  enc : Nat
deriving DecidableEq, Repr

/-- The state of an `XlaNode`: operation kind, operand references, cached
XLA shape, declared output count, the cached structural (`node_hash_`),
dag (`dag_hash_`) and sharding (`sharding_hash_`) digests, the per-output
sharding store and the dynamic-dimension marker set
(`std::unordered_set<uint32_t>`, modelled as a duplicate-free list). -/
structure XlaNode where
  op : OpKind
  operands : List Value
  xla_shape : XlaShape
  num_outputs : Nat
  node_hash : Nat
  dag_hash : Nat
  sharding_hash : Nat
  output_shardings : List (Option OpSharding)
  unbounded_dynamic_dims : List Nat
deriving DecidableEq, Repr

/-- Modelled from the spec: `XlaNode::GetOpHash` (body in `ir.cpp`, not in
the repository slice).  The structural hash "combines operation kind +
output shape + an operation-specific seed" (spec sections 3 and 4.1). -/
def GetOpHash (op : OpKind) (shape : XlaShape) (hash_seed : Nat) : Nat :=
  HashCombine op.opHash (HashCombine (xlaShapeHash shape) hash_seed)

/-- Modelled from the spec: the dag-hash computation of the `XlaNode`
constructor (body in `ir.cpp`, not in the repository slice).  The dag
hash "combines the structural hash with the dag hashes of all operands
(and, for multi-output operands, the specific output index referenced)"
(spec section 3). -/
def dagHashOf (node_hash : Nat) (operands : List Value) : Nat :=
  operands.foldl (fun h v => HashCombine h (HashCombine v.nodeHash v.index)) node_hash

/-- Modelled from the spec: the `XlaNode` constructor (body in `ir.cpp`,
not in the repository slice).  Construction fixes kind, operands, shape
and output count, computes the structural hash from kind + shape + seed
and the dag hash from the structural hash + operand identities (spec
section 4.1); the sharding store starts empty with sharding hash zero and
no dynamic dimension is marked. -/
def mkXlaNode (op : OpKind) (operands : List Value) (xla_shape : XlaShape)
    (num_outputs : Nat) (hash_seed : Nat) : XlaNode :=
  let nh := GetOpHash op xla_shape hash_seed
  { op := op
    operands := operands
    xla_shape := xla_shape
    num_outputs := num_outputs
    node_hash := nh
    dag_hash := dagHashOf nh operands
    sharding_hash := 0
    output_shardings := []
    unbounded_dynamic_dims := [] }

/-- `XlaNode::hash()` (ir.h): the dag hash, combined with the sharding
hash when the latter is nonzero. -/
def XlaNode.hash (n : XlaNode) : Nat :=
  if n.sharding_hash ≠ 0 then HashCombine n.dag_hash n.sharding_hash
  else n.dag_hash

/-- `XlaNode::shapeHash()` (ir.h): the dag hash. -/
def XlaNode.shapeHash (n : XlaNode) : Nat := n.dag_hash

/-- `XlaNode::shardingHash()` (ir.h). -/
def XlaNode.shardingHash (n : XlaNode) : Nat := n.sharding_hash

/-- `XlaNode::GetSharding(index)` (ir.h): null when the sharding store is
empty, otherwise the stored (possibly null) entry at `index`.  An
out-of-range `index` on a non-empty store is undefined behaviour in the
C++ (`operator[]`); the model totalises it with `none`. -/
def XlaNode.GetSharding (n : XlaNode) (index : Nat) : Option OpSharding :=
  if n.output_shardings.length = 0 then none
  else (n.output_shardings.getD index none)

/-- Modelled from the spec: `UpdateShardingHash` (body in `ir.cpp`, not in
the repository slice).  The sharding hash is "derived from the sharding
annotation list; zero when no annotations are present" (spec section 3). -/
def shardingHashOf (l : List (Option OpSharding)) : Nat :=
  l.foldl (fun h s => match s with
    | none => h
    | some sh => HashCombine h sh.enc) 0

/-- Modelled from the spec: `XlaNode::SetSharding` (body in `ir.cpp`, not
in the repository slice).  It mutates the per-output sharding list
(sizing it to the output count on first use) and recomputes the sharding
hash (spec section 4.1). -/
def XlaNode.SetSharding (n : XlaNode) (sharding : OpSharding) (index : Nat) : XlaNode :=
  let base := if n.output_shardings.length = 0
    then List.replicate n.num_outputs (none : Option OpSharding)
    else n.output_shardings
  let updated := base.set index (some sharding)
  { n with output_shardings := updated, sharding_hash := shardingHashOf updated }

/-- `XlaNode::ClearSharding()` (ir.h): clears the sharding store and
resets the sharding hash to zero. -/
def XlaNode.ClearSharding (n : XlaNode) : XlaNode :=
  { n with output_shardings := [], sharding_hash := 0 }

/-- `XlaNode::MarkDynamicDimension(dim)` (ir.h): insertion into the
`std::unordered_set` of unbounded dynamic dimensions (a no-op when the
dimension is already present). -/
def XlaNode.MarkDynamicDimension (n : XlaNode) (dim : Nat) : XlaNode :=
  if dim ∈ n.unbounded_dynamic_dims then n
  else { n with unbounded_dynamic_dims := dim :: n.unbounded_dynamic_dims }

/-- `NodeCast<T>(node, op)` (ir.h): returns null when the expected kind
differs from the node's kind, otherwise performs the downcast and returns
the node under its concrete type.  The C++ template's type parameter is
erased here; the kind tag is the dispatch evidence the cast checks. -/
def NodeCast (node : XlaNode) (op : OpKind) : Option XlaNode :=
  if op ≠ node.op then none
  else some node

/-- `AllReduceType` (cross_replica_reduces.h, declaration outside the
repository slice): the reduction kind enumeration. -/
inductive AllReduceType where
  | kSum
  | kMul
  | kMin
  | kMax
  | kAnd
  | kOr
deriving DecidableEq, Repr

/-- `torch::lazy::GetEnumValue`: the numeric value of the enumerator. -/
def AllReduceType.enumValue : AllReduceType → Nat
  | AllReduceType.kSum => 0
  | AllReduceType.kMul => 1
  | AllReduceType.kMin => 2
  | AllReduceType.kMax => 3
  | AllReduceType.kAnd => 4
  | AllReduceType.kOr => 5

/-- The interned kind `xla_cross_replica_sum` (xla_ops.cpp, outside the
repository slice): a fixed symbolic identifier. -/
def xla_cross_replica_sum : OpKind := OpKind.mk "xla::cross_replica_sum"

/-- `torch::lazy::MHash(reduce_type, scale, groups, pin_layout)`: the
hash seed of the token-form constructor. -/
def mHashTok (reduce_type : AllReduceType) (scale : Rat)
    (groups : List (List Int)) (pin_layout : Bool) : Nat :=
  hashList [reduce_type.enumValue, ratEnc scale, groupsEnc groups,
            if pin_layout then 1 else 0]

/-- `torch::lazy::MHash(reduce_type, scale, groups)`: the hash seed of
the single-operand (no-token) constructor. -/
def mHashNoTok (reduce_type : AllReduceType) (scale : Rat)
    (groups : List (List Int)) : Nat :=
  hashList [reduce_type.enumValue, ratEnc scale, groupsEnc groups]

/-- `NodeOutputShape(operands, token)` (all_reduce.cpp): a tuple of the
operands' shapes followed by the token's shape. -/
def NodeOutputShape (operands : List Value) (token : Value) : XlaShape :=
  XlaShape.tuple (operands.map Value.shape ++ [token.shape])

/-- Modelled from the spec: `GetOperandListWithToken`
(cross_replica_reduces.cpp, not in the repository slice): the operand
list with the ordering token appended last. -/
def GetOperandListWithToken (operands : List Value) (token : Value) : List Value :=
  operands ++ [token]

/-- The `AllReduce` node (all_reduce.h fields, visible through
all_reduce.cpp): the base node plus the immutable reduction parameters.
`has_token` records which construction form was used; the token-form
constructor leaves it at its in-class default `true`, the single-operand
form sets it to `false`. -/
structure AllReduce where
  toXlaNode : XlaNode
  reduce_type : AllReduceType
  scale : Rat
  groups : List (List Int)
  pin_layout : Bool
  has_token : Bool
deriving DecidableEq, Repr

/-- The token-form constructor `AllReduce::AllReduce(reduce_type,
operands, token, scale, groups, pin_layout)` (all_reduce.cpp lines
27-40): base node over the operands-plus-token list with the tuple
output shape, `operands.size() + 1` outputs and the four-parameter
`MHash` seed. -/
def AllReduce.mkWithToken (reduce_type : AllReduceType) (operands : List Value)
    (token : Value) (scale : Rat) (groups : List (List Int))
    (pin_layout : Bool) : AllReduce :=
  { toXlaNode := mkXlaNode xla_cross_replica_sum
      (GetOperandListWithToken operands token)
      (NodeOutputShape operands token)
      (operands.length + 1)
      (mHashTok reduce_type scale groups pin_layout)
    reduce_type := reduce_type
    scale := scale
    groups := groups
    pin_layout := pin_layout
    has_token := true }

/-- The single-operand no-token constructor `AllReduce::AllReduce(
reduce_type, operand, scale, groups)` (all_reduce.cpp lines 42-52): base
node over the single operand with that operand's shape, one output and
the three-parameter `MHash` seed; `pin_layout_` is `false` and
`has_token_` is `false`. -/
def AllReduce.mkNoToken (reduce_type : AllReduceType) (operand : Value)
    (scale : Rat) (groups : List (List Int)) : AllReduce :=
  { toXlaNode := mkXlaNode xla_cross_replica_sum [operand]
      (GetXlaShape operand) 1 (mHashNoTok reduce_type scale groups)
    reduce_type := reduce_type
    scale := scale
    groups := groups
    pin_layout := false
    has_token := false }

/-- A default `Value`, standing in for the unspecified result of the
C++ undefined behaviour of `back()` / `operator[]` on an empty vector. -/
def dfltValue : Value := Value.mk 0 (ArrayShape.mk "" []) 0

/-- `AllReduce::Clone(operands)` (all_reduce.cpp lines 54-60):
unconditionally splits the new operand list into all-but-last (data) and
last (token) and rebuilds via the token-form constructor with the stored
parameters. -/
def AllReduce.Clone (n : AllReduce) (operands : List Value) : AllReduce :=
  AllReduce.mkWithToken n.reduce_type operands.dropLast
    (operands.getLastD dfltValue) n.scale n.groups n.pin_layout

/-- A backend operation handle (`xla::XlaOp`), modelled as a term
recording how the handle was built so that which operand handles were
passed where is observable. -/
inductive XlaOp where
  | fromValue (v : Value)
  | reduced (reduce_type : AllReduceType) (input : XlaOp) (scale : Rat)
      (groups : List (List Int))
  | reducedTok (reduce_type : AllReduceType) (input : XlaOp) (scale : Rat)
      (groups : List (List Int)) (pin_layout : Bool)
  | updatedToken (token : XlaOp)
deriving DecidableEq, Repr

/-- Modelled from the spec: the no-token `BuildAllReduce`
(cross_replica_reduces.cpp, not in the repository slice): "lowers the
single operand directly into one backend reduction call parameterized by
reduce-kind, scale, and grouping" (spec section 4.3). -/
def BuildAllReduceOne (reduce_type : AllReduceType) (input : XlaOp)
    (scale : Rat) (groups : List (List Int)) : XlaOp :=
  XlaOp.reduced reduce_type input scale groups

/-- Modelled from the spec: the token-aware `BuildAllReduce`
(cross_replica_reduces.cpp, not in the repository slice): consumes the
data input handles and the token handle and returns one reduced handle
per input plus an updated token handle (spec sections 4.3 and 6). -/
def BuildAllReduceTok (reduce_type : AllReduceType) (inputs : List XlaOp)
    (token : XlaOp) (scale : Rat) (groups : List (List Int))
    (pin_layout : Bool) : List XlaOp :=
  inputs.map (fun i => XlaOp.reducedTok reduce_type i scale groups pin_layout)
    ++ [XlaOp.updatedToken token]

/-- Modelled from the spec: `XlaNode::ReturnOp` (body in `ir.cpp`, not in
the repository slice): registers and returns the single produced handle. -/
def ReturnOp (op : XlaOp) : List XlaOp := [op]

/-- Modelled from the spec: `XlaNode::ReturnOps` (body in `ir.cpp`, not
in the repository slice): registers and returns the produced handles. -/
def ReturnOps (ops : List XlaOp) : List XlaOp := ops

/-- `AllReduce::Lower(loctx)` (all_reduce.cpp lines 62-79).  The lowering
context is modelled as the map from already-lowered operand outputs to
their backend handles (`loctx->GetOutputOp`).  Without a token the single
operand is lowered into one reduction call; with a token all but the
last operand are the data inputs and the last operand is the token. -/
def AllReduce.Lower (n : AllReduce) (loctx : Value → XlaOp) : List XlaOp :=
  if n.has_token = false then
    ReturnOp (BuildAllReduceOne n.reduce_type
      (loctx (n.toXlaNode.operands.headD dfltValue)) n.scale n.groups)
  else
    let operand_list := n.toXlaNode.operands
    let inputs := operand_list.dropLast.map loctx
    let token := loctx (operand_list.getLastD dfltValue)
    ReturnOps (BuildAllReduceTok n.reduce_type inputs token n.scale n.groups
      n.pin_layout)

/-- Claim C1: two nodes constructed with identical operation kind,
identical operand identities (same operand node and output index),
identical output shape and identical hash seed have equal structural
hashes and equal dag hashes — node identity is a deterministic function
of these four inputs (the declared output count may even differ). -/
theorem node_identity_deterministic (op1 op2 : OpKind) (ops1 ops2 : List Value)
    (sh1 sh2 : XlaShape) (k1 k2 : Nat) (seed1 seed2 : Nat)
    (hop : op1 = op2) (hops : ops1 = ops2) (hsh : sh1 = sh2)
    (hseed : seed1 = seed2) :
    (mkXlaNode op1 ops1 sh1 k1 seed1).node_hash =
      (mkXlaNode op2 ops2 sh2 k2 seed2).node_hash ∧
    (mkXlaNode op1 ops1 sh1 k1 seed1).dag_hash =
      (mkXlaNode op2 ops2 sh2 k2 seed2).dag_hash := by
  subst hop hops hsh hseed
  exact ⟨rfl, rfl⟩

/-- Witness for claim C1 at a concrete construction (output counts 1 and
3 differ, the four identity inputs coincide). -/
theorem node_identity_deterministic_witness :
    (mkXlaNode (OpKind.mk "f") [Value.mk 5 (ArrayShape.mk "f32" [2]) 0]
        (XlaShape.array (ArrayShape.mk "f32" [2])) 1 7).node_hash =
      (mkXlaNode (OpKind.mk "f") [Value.mk 5 (ArrayShape.mk "f32" [2]) 0]
        (XlaShape.array (ArrayShape.mk "f32" [2])) 3 7).node_hash ∧
    (mkXlaNode (OpKind.mk "f") [Value.mk 5 (ArrayShape.mk "f32" [2]) 0]
        (XlaShape.array (ArrayShape.mk "f32" [2])) 1 7).dag_hash =
      (mkXlaNode (OpKind.mk "f") [Value.mk 5 (ArrayShape.mk "f32" [2]) 0]
        (XlaShape.array (ArrayShape.mk "f32" [2])) 3 7).dag_hash :=
  node_identity_deterministic _ _ _ _ _ _ _ _ _ _ rfl rfl rfl rfl

/-- Claim C2: `hash()` equals the dag hash when the sharding hash is
zero, and otherwise equals `HashCombine` of the dag hash and the
sharding hash. -/
theorem hash_combines_sharding (n : XlaNode) :
    n.hash = if n.shardingHash = 0 then n.dag_hash
             else HashCombine n.dag_hash n.shardingHash := by
  by_cases h : n.sharding_hash = 0 <;>
    simp [XlaNode.hash, XlaNode.shardingHash, h]

/-- Claim C3: mutating only the sharding annotations (via `SetSharding`
or `ClearSharding`) never changes `shapeHash()`; the dag hash is
independent of the sharding store. -/
theorem shapeHash_sharding_independent (n : XlaNode) (s : OpSharding) (i : Nat) :
    (n.SetSharding s i).shapeHash = n.shapeHash ∧
    n.ClearSharding.shapeHash = n.shapeHash ∧
    (n.SetSharding s i).dag_hash = n.dag_hash ∧
    n.ClearSharding.dag_hash = n.dag_hash :=
  ⟨rfl, rfl, rfl, rfl⟩

/-- Claim C4: after `ClearSharding()` the sharding hash is zero and
`hash()` equals `shapeHash()`; a set-then-clear round trip restores the
identity hash of an unsharded node with the same dag hash. -/
theorem clearSharding_restores_identity (n : XlaNode) (s : OpSharding) (i : Nat) :
    n.ClearSharding.shardingHash = 0 ∧
    n.ClearSharding.hash = n.ClearSharding.shapeHash ∧
    ((n.SetSharding s i).ClearSharding).hash = n.shapeHash ∧
    ((n.SetSharding s i).ClearSharding).hash = n.dag_hash := by
  refine ⟨rfl, ?_, ?_, ?_⟩ <;>
    simp [XlaNode.hash, XlaNode.ClearSharding, XlaNode.SetSharding,
      XlaNode.shapeHash, XlaNode.shardingHash]

/-- Concrete values used by the claim C5 counterexample. -/
def cVal : Value := Value.mk 11 (ArrayShape.mk "f32" [4, 4]) 0

/-- A second concrete operand value for rebinding under `Clone`. -/
def cVal2 : Value := Value.mk 12 (ArrayShape.mk "f32" [4, 4]) 0

/-- A concrete single-operand no-token reduction node. -/
def cNoTok : AllReduce := AllReduce.mkNoToken AllReduceType.kSum cVal 1 []

/-- Counterexample to claim C5 as stated: cloning the no-token node
`cNoTok` with the single new operand `cVal2` does NOT reproduce the
no-token form — the clone is token-form (`has_token = true`, output
shape a one-element tuple) while the no-token construction over the same
new operand has `has_token = false` and a non-tuple shape. -/
theorem clone_noToken_counterexample :
    cNoTok.has_token = false ∧
    (cNoTok.Clone [cVal2]).has_token = true ∧
    (AllReduce.mkNoToken AllReduceType.kSum cVal2 1 []).has_token = false ∧
    (cNoTok.Clone [cVal2]).toXlaNode.xla_shape ≠
      (AllReduce.mkNoToken AllReduceType.kSum cVal2 1 []).toXlaNode.xla_shape := by
  refine ⟨rfl, rfl, rfl, ?_⟩
  decide

/-- Claim C5 (amended): `Clone(new_operands)` always reconstructs the
token form, splitting the new operand list into all-but-last (data) and
last (token) regardless of which form the original node had; when the
original node had a token and the new operand list preserves the
original arity, the cloned node's data-operand count equals the original
operand count minus one and its output count is preserved. -/
theorem clone_splits_operands (rt : AllReduceType) (ops : List Value)
    (token : Value) (scale : Rat) (groups : List (List Int)) (pin : Bool)
    (new_ops : List Value)
    (hlen : new_ops.length =
      (AllReduce.mkWithToken rt ops token scale groups pin).toXlaNode.operands.length) :
    (∀ (m : AllReduce) (l : List Value), (m.Clone l).has_token = true) ∧
    ((AllReduce.mkWithToken rt ops token scale groups pin).Clone
        new_ops).toXlaNode.operands.dropLast.length =
      (AllReduce.mkWithToken rt ops token scale groups pin).toXlaNode.operands.length - 1 ∧
    ((AllReduce.mkWithToken rt ops token scale groups pin).Clone
        new_ops).toXlaNode.num_outputs =
      (AllReduce.mkWithToken rt ops token scale groups pin).toXlaNode.num_outputs := by
  refine ⟨fun m l => rfl, ?_, ?_⟩
  · simp only [AllReduce.mkWithToken, AllReduce.Clone, mkXlaNode,
      GetOperandListWithToken, List.length_append, List.length_singleton] at hlen ⊢
    rw [List.dropLast_concat, List.length_dropLast]
    omega
  · simp only [AllReduce.mkWithToken, AllReduce.Clone, mkXlaNode,
      GetOperandListWithToken, List.length_append, List.length_singleton] at hlen ⊢
    rw [List.length_dropLast]
    omega

/-- Witness for claim C5 (amended) at a concrete token-form node with
two data operands and a token, cloned with three fresh operands. -/
theorem clone_splits_operands_witness :
    ([Value.mk 21 (ArrayShape.mk "f32" [2]) 0,
      Value.mk 22 (ArrayShape.mk "f32" [2]) 0,
      Value.mk 23 (ArrayShape.mk "u32" []) 0] : List Value).length =
      (AllReduce.mkWithToken AllReduceType.kSum
        [cVal, cVal2] (Value.mk 13 (ArrayShape.mk "u32" []) 0)
        1 [] false).toXlaNode.operands.length ∧
    ((AllReduce.mkWithToken AllReduceType.kSum
        [cVal, cVal2] (Value.mk 13 (ArrayShape.mk "u32" []) 0)
        1 [] false).Clone
      [Value.mk 21 (ArrayShape.mk "f32" [2]) 0,
       Value.mk 22 (ArrayShape.mk "f32" [2]) 0,
       Value.mk 23 (ArrayShape.mk "u32" []) 0]).toXlaNode.operands.dropLast.length =
      (AllReduce.mkWithToken AllReduceType.kSum
        [cVal, cVal2] (Value.mk 13 (ArrayShape.mk "u32" []) 0)
        1 [] false).toXlaNode.operands.length - 1 :=
  ⟨by decide,
   (clone_splits_operands AllReduceType.kSum [cVal, cVal2]
     (Value.mk 13 (ArrayShape.mk "u32" []) 0) 1 [] false
     [Value.mk 21 (ArrayShape.mk "f32" [2]) 0,
      Value.mk 22 (ArrayShape.mk "f32" [2]) 0,
      Value.mk 23 (ArrayShape.mk "u32" []) 0] (by decide)).2.1⟩

/-- Claim C6: lowering a no-token reduction node returns exactly one
result handle; lowering a token-bearing node with K data operands passes
the first K operand handles as data inputs and the last operand handle
as the token, and returns exactly K+1 result handles. -/
theorem lower_handle_counts (rt : AllReduceType) (operand : Value)
    (ops : List Value) (token : Value) (scale : Rat)
    (groups : List (List Int)) (pin : Bool) (loctx : Value → XlaOp) :
    ((AllReduce.mkNoToken rt operand scale groups).Lower loctx).length = 1 ∧
    (AllReduce.mkWithToken rt ops token scale groups pin).Lower loctx =
      BuildAllReduceTok rt (ops.map loctx) (loctx token) scale groups pin ∧
    ((AllReduce.mkWithToken rt ops token scale groups pin).Lower
      loctx).length = ops.length + 1 := by
  have hmid : (AllReduce.mkWithToken rt ops token scale groups pin).Lower loctx =
      BuildAllReduceTok rt (ops.map loctx) (loctx token) scale groups pin := by
    simp only [AllReduce.Lower, AllReduce.mkWithToken, mkXlaNode,
      GetOperandListWithToken, ReturnOps]
    rw [List.dropLast_concat, List.getLastD_concat]
    simp
  refine ⟨rfl, hmid, ?_⟩
  rw [hmid]
  simp [BuildAllReduceTok]

/-- Claim C7: a token-form reduction node built from N data operands
plus a token has exactly N+1 outputs and its output shape is the tuple
of the data operands' shapes in order followed by the token's shape; at
the spec's concrete instance (3 operands of (f32,[4,4]), a (u32,[])
token, scale 1, groups [[0,1],[2,3]], pin_layout false) this gives 4
outputs and the tuple [(f32,[4,4]), (f32,[4,4]), (f32,[4,4]),
(u32,[])]. -/
theorem token_node_output_shape (rt : AllReduceType) (ops : List Value)
    (token : Value) (scale : Rat) (groups : List (List Int)) (pin : Bool) :
    (AllReduce.mkWithToken rt ops token scale groups pin).toXlaNode.num_outputs
      = ops.length + 1 ∧
    (AllReduce.mkWithToken rt ops token scale groups pin).toXlaNode.xla_shape
      = XlaShape.tuple (ops.map Value.shape ++ [token.shape]) ∧
    (AllReduce.mkWithToken AllReduceType.kSum
        [Value.mk 1 (ArrayShape.mk "f32" [4, 4]) 0,
         Value.mk 2 (ArrayShape.mk "f32" [4, 4]) 0,
         Value.mk 3 (ArrayShape.mk "f32" [4, 4]) 0]
        (Value.mk 4 (ArrayShape.mk "u32" []) 0) 1 [[0, 1], [2, 3]]
        false).toXlaNode.num_outputs = 4 ∧
    (AllReduce.mkWithToken AllReduceType.kSum
        [Value.mk 1 (ArrayShape.mk "f32" [4, 4]) 0,
         Value.mk 2 (ArrayShape.mk "f32" [4, 4]) 0,
         Value.mk 3 (ArrayShape.mk "f32" [4, 4]) 0]
        (Value.mk 4 (ArrayShape.mk "u32" []) 0) 1 [[0, 1], [2, 3]]
        false).toXlaNode.xla_shape =
      XlaShape.tuple [ArrayShape.mk "f32" [4, 4], ArrayShape.mk "f32" [4, 4],
        ArrayShape.mk "f32" [4, 4], ArrayShape.mk "u32" []] :=
  ⟨rfl, rfl, rfl, rfl⟩

/-- Claim C8: the safe downcast helper returns a null pointer exactly
when the node's actual operation kind differs from the expected kind,
and on a kind match performs the downcast, returning the node itself
(non-null). -/
theorem nodeCast_checks_kind (n : XlaNode) (op : OpKind) :
    ((NodeCast n op).isSome ↔ op = n.op) ∧
    (NodeCast n op = none ∨ NodeCast n op = some n) := by
  unfold NodeCast
  by_cases h : op = n.op <;> simp [h]

/-- Claim C9: marking a dynamic dimension is idempotent and leaves all
four node hashes — `hash()`, `shapeHash()`, `node_hash()` and
`shardingHash()` — unchanged. -/
theorem markDynamicDimension_idem_hashes (n : XlaNode) (dim : Nat) :
    (n.MarkDynamicDimension dim).MarkDynamicDimension dim
      = n.MarkDynamicDimension dim ∧
    (n.MarkDynamicDimension dim).hash = n.hash ∧
    (n.MarkDynamicDimension dim).shapeHash = n.shapeHash ∧
    (n.MarkDynamicDimension dim).node_hash = n.node_hash ∧
    (n.MarkDynamicDimension dim).shardingHash = n.shardingHash := by
  unfold XlaNode.MarkDynamicDimension XlaNode.hash XlaNode.shapeHash
    XlaNode.shardingHash
  by_cases h : dim ∈ n.unbounded_dynamic_dims
  · simp [h]
  · simp [h]

/-- Claim C10: with an empty sharding-annotation store (never set, or
cleared by `ClearSharding`), `GetSharding(index)` returns null for every
index, including indices at or beyond the node's output count. -/
theorem getSharding_empty_none (n m : XlaNode) (i j : Nat)
    (h : n.output_shardings = []) :
    n.GetSharding i = none ∧ m.ClearSharding.GetSharding j = none := by
  constructor
  · simp [XlaNode.GetSharding, h]
  · simp [XlaNode.GetSharding, XlaNode.ClearSharding]

/-- Witness for claim C10 at a freshly constructed two-output node
queried at index 5 (beyond the output count), and a node whose sharding
was set then cleared, queried at index 7. -/
theorem getSharding_empty_none_witness :
    (mkXlaNode (OpKind.mk "g") []
      (XlaShape.tuple [ArrayShape.mk "f32" [], ArrayShape.mk "f32" []])
      2 9).GetSharding 5 = none ∧
    (((mkXlaNode (OpKind.mk "g") []
      (XlaShape.tuple [ArrayShape.mk "f32" [], ArrayShape.mk "f32" []])
      2 9).SetSharding (OpSharding.mk 3) 0).ClearSharding).GetSharding 7
      = none :=
  getSharding_empty_none _ _ 5 7 rfl
